import Mathlib

/-!
Verification of the real-time CDC ingestion engine
(`src/pipelines/cdc_realtime.py`) against its design specification.

The Python module is shallowly embedded below:

* JSON values (the decoded Pub/Sub message payloads, Debezium envelopes,
  row images) are modelled by the inductive type `Json`.  Numbers are
  modelled as integers: every numeric field the pipeline touches
  (`ts_ms`, row ids, amounts in the repository tests) is integral.
* `CDCEvent.from_debezium`, `CDCEvent.operation_label` and
  `CDCEvent.to_bigquery_row` are translated directly; Python exceptions
  (AttributeError on `.get`/`.items` of a non-dict, TypeError on
  dividing a non-number or hashing an unhashable dict key) are modelled
  with `Except PyErr`.
* `json.dumps` (default separators, `ensure_ascii=True`) and the Python
  `str`/`repr` stringification used for the flattened `col_*` values are
  implemented character by character.
* `datetime.utcfromtimestamp(ms / 1000).isoformat()` and
  `datetime.utcnow().isoformat()` are implemented with the proleptic
  Gregorian civil-from-days algorithm; the current wall clock is passed
  explicitly as microseconds since the epoch.
* The mutable pipeline object (`_buffer`, `_buffer_count`,
  `_last_flush_time`, `_running`, `_total_processed`) becomes the
  record `PipeState` with explicit state passing; `time.time()` values
  are rationals; the BigQuery response to `insert_rows_json` (the list
  of per-row error objects) is passed in as a function argument `resp`.
-/

/-- A decoded JSON value (the result of a successful `json.loads`). -/
inductive Json where
  | null : Json
  | bool : Bool → Json
  | num  : Int → Json
  | str  : String → Json
  | arr  : List Json → Json
  | obj  : List (String × Json) → Json
deriving Repr

/-- Decimal digit to character. -/
def digitChar (d : Nat) : Char := Char.ofNat (48 + d)

/-- Hexadecimal digit to (lower-case) character. -/
def hexDigitChar (d : Nat) : Char :=
  if d < 10 then Char.ofNat (48 + d) else Char.ofNat (87 + d)

/-- Two-digit lower-case hexadecimal rendering (used by Python
`repr` for its `\xHH` escapes). -/
def hex2 (n : Nat) : String :=
  String.mk [hexDigitChar (n / 16 % 16), hexDigitChar (n % 16)]

/-- Four-digit lower-case hexadecimal rendering (used by `json.dumps` for
its `\uHHHH` escapes). -/
def hex4 (n : Nat) : String :=
  String.mk [hexDigitChar (n / 4096 % 16), hexDigitChar (n / 256 % 16),
             hexDigitChar (n / 16 % 16), hexDigitChar (n % 16)]

/-- Fuel-driven decimal printer for naturals; the fuel `n + 1` always
suffices.  Mirrors the Python decimal rendering of non-negative ints. -/
def natReprCore : Nat → Nat → String → String
  | 0, _, acc => acc
  | fuel+1, n, acc =>
      let acc2 := String.singleton (digitChar (n % 10)) ++ acc
      if n < 10 then acc2 else natReprCore fuel (n / 10) acc2

/-- Decimal rendering of a natural number. -/
def natRepr (n : Nat) : String := natReprCore (n+1) n ""

/-- Decimal rendering of an integer, as the Python `repr`/`str` of an
`int` produces it. -/
def intRepr (n : Int) : String :=
  if n < 0 then "-" ++ natRepr (-n).toNat else natRepr n.toNat

/-- Escaping of one character inside a `json.dumps` string literal with
the default `ensure_ascii=True`: everything outside printable ASCII is
escaped, astral code points as surrogate pairs. -/
def jsonEscChar (c : Char) : String :=
  if c = '"' then "\\\""
  else if c = '\\' then "\\\\"
  else if c = '\n' then "\\n"
  else if c = '\r' then "\\r"
  else if c = '\t' then "\\t"
  else if c.toNat = 8 then "\\b"
  else if c.toNat = 12 then "\\f"
  else if c.toNat < 32 then "\\u" ++ hex4 c.toNat
  else if c.toNat < 127 then String.singleton c
  else if c.toNat < 65536 then "\\u" ++ hex4 c.toNat
  else
    "\\u" ++ hex4 (55296 + (c.toNat - 65536) / 1024) ++
    "\\u" ++ hex4 (56320 + (c.toNat - 65536) % 1024)

/-- A `json.dumps` string literal: quoted and escaped. -/
def dumpStr (s : String) : String :=
  "\"" ++ String.join (s.data.map jsonEscChar) ++ "\""

mutual

/-- `json.dumps(value)` with the default separators `", "` and `": "`. -/
def dumps : Json → String
  | .null => "null"
  | .bool true => "true"
  | .bool false => "false"
  | .num n => intRepr n
  | .str s => dumpStr s
  | .arr xs => "[" ++ dumpsArr xs ++ "]"
  | .obj kvs => "\x7b" ++ dumpsObj kvs ++ "\x7d"

/-- Comma-separated `json.dumps` rendering of array elements. -/
def dumpsArr : List Json → String
  | [] => ""
  | [j] => dumps j
  | j :: rest => dumps j ++ ", " ++ dumpsArr rest

/-- Comma-separated `json.dumps` rendering of object members. -/
def dumpsObj : List (String × Json) → String
  | [] => ""
  | [(k, v)] => dumpStr k ++ ": " ++ dumps v
  | (k, v) :: rest => dumpStr k ++ ": " ++ dumps v ++ ", " ++ dumpsObj rest

end

/-- Quote character Python `repr` chooses for a string: single quotes
unless the string contains a single quote and no double quote. -/
def pyReprQuote (s : String) : Char :=
  if s.data.contains '\'' && !(s.data.contains '"') then '"' else '\''

/-- Escaping of one character inside a Python `repr` string literal
(backslash, the active quote, and non-printable ASCII). -/
def pyEscChar (q : Char) (c : Char) : String :=
  if c = '\\' then "\\\\"
  else if c = q then "\\" ++ String.singleton q
  else if c = '\n' then "\\n"
  else if c = '\r' then "\\r"
  else if c = '\t' then "\\t"
  else if c.toNat < 32 || c.toNat = 127 then "\\x" ++ hex2 c.toNat
  else String.singleton c

/-- Python `repr` of a string. -/
def pyReprStr (s : String) : String :=
  let q := pyReprQuote s
  String.singleton q ++ String.join (s.data.map (pyEscChar q)) ++ String.singleton q

mutual

/-- Python `repr` of a decoded JSON value (lists and dicts render
recursively, strings with quotes). -/
def pyRepr : Json → String
  | .null => "None"
  | .bool true => "True"
  | .bool false => "False"
  | .num n => intRepr n
  | .str s => pyReprStr s
  | .arr xs => "[" ++ pyReprArr xs ++ "]"
  | .obj kvs => "\x7b" ++ pyReprObj kvs ++ "\x7d"

/-- Comma-separated `repr` rendering of list elements. -/
def pyReprArr : List Json → String
  | [] => ""
  | [j] => pyRepr j
  | j :: rest => pyRepr j ++ ", " ++ pyReprArr rest

/-- Comma-separated `repr` rendering of dict items. -/
def pyReprObj : List (String × Json) → String
  | [] => ""
  | [(k, v)] => pyReprStr k ++ ": " ++ pyRepr v
  | (k, v) :: rest => pyReprStr k ++ ": " ++ pyRepr v ++ ", " ++ pyReprObj rest

end

/-- Python `str(value)` as used for the flattened `col_*` values:
strings pass through unchanged, everything else renders as `repr`. -/
def pyStr : Json → String
  | .str s => s
  | j => pyRepr j

/-- Python truthiness of a decoded JSON value (`if self.after:` etc.):
`None`, `False`, `0`, the empty string, the empty list and the empty
dict are falsy. -/
def truthy : Json → Bool
  | .null => false
  | .bool b => b
  | .num n => n != 0
  | .str s => s != ""
  | .arr xs => !xs.isEmpty
  | .obj kvs => !kvs.isEmpty

/-- Whether a decoded JSON value is hashable in Python (usable as a
dict key and as an argument of `dict.get`): lists and dicts are not. -/
def hashableKey : Json → Bool
  | .arr _ => false
  | .obj _ => false
  | _ => true

mutual

/-- Python `==` on decoded JSON values, as used by dict-key lookup.
`True == 1` and `False == 0` (bool is an int subclass); dict equality
is modelled structurally, which agrees with Python on the values that
can actually reach a key comparison (unhashable values never do). -/
def Json.beq : Json → Json → Bool
  | .null, .null => true
  | .bool a, .bool b => a == b
  | .bool a, .num b => (if a then (1 : Int) else 0) == b
  | .num a, .bool b => a == (if b then (1 : Int) else 0)
  | .num a, .num b => a == b
  | .str a, .str b => a == b
  | .arr a, .arr b => Json.beqArr a b
  | .obj a, .obj b => Json.beqObj a b
  | _, _ => false

/-- Elementwise `==` on lists of JSON values. -/
def Json.beqArr : List Json → List Json → Bool
  | [], [] => true
  | a :: as1, b :: bs1 => Json.beq a b && Json.beqArr as1 bs1
  | _, _ => false

/-- Itemwise `==` on dict item lists. -/
def Json.beqObj : List (String × Json) → List (String × Json) → Bool
  | [], [] => true
  | (ka, va) :: as1, (kb, vb) :: bs1 =>
      ka == kb && Json.beq va vb && Json.beqObj as1 bs1
  | _, _ => false

end

/-- `d.get(k, default)` on the item list of a decoded JSON object.  A dict
built by `json.loads` keeps the last occurrence of a duplicated key,
hence the reversed lookup. -/
def dictGetD (kvs : List (String × Json)) (k : String) (d : Json) : Json :=
  match kvs.reverse.lookup k with
  | some v => v
  | none => d

/-- Left-pad a string with zeros to the given width. -/
def padZero (len : Nat) (s : String) : String :=
  String.mk (List.replicate (len - s.length) '0') ++ s

/-- Proleptic Gregorian date for a day count relative to 1970-01-01
(the standard civil-from-days algorithm, as `datetime` computes it). -/
def civilFromDays (z0 : Int) : Int × Int × Int :=
  let z := z0 + 719468
  let era := z.ediv 146097
  let doe := z.emod 146097
  let yoe := (doe - doe.ediv 1460 + doe.ediv 36524 - doe.ediv 146096).ediv 365
  let y := yoe + era * 400
  let doy := doe - (365 * yoe + yoe.ediv 4 - yoe.ediv 100)
  let mp := (5 * doy + 2).ediv 153
  let d := doy - (153 * mp + 2).ediv 5 + 1
  let m := mp + (if mp < 10 then 3 else -9)
  (y + (if m ≤ 2 then 1 else 0), m, d)

/-- `datetime.utcfromtimestamp(sec).isoformat()` for a split
seconds/microseconds timestamp: `isoformat` omits the fractional part
when the microsecond field is zero. -/
def isoFromEpoch (secs : Int) (micro : Nat) : String :=
  let days := secs.ediv 86400
  let sod := secs.emod 86400
  let ymd := civilFromDays days
  padZero 4 (intRepr ymd.1) ++ "-" ++ padZero 2 (intRepr ymd.2.1) ++ "-" ++
    padZero 2 (intRepr ymd.2.2) ++ "T" ++
    padZero 2 (intRepr (sod.ediv 3600)) ++ ":" ++
    padZero 2 (intRepr ((sod.emod 3600).ediv 60)) ++ ":" ++
    padZero 2 (intRepr (sod.emod 60)) ++
    (if micro = 0 then "" else "." ++ padZero 6 (natRepr micro))

/-- `datetime.utcfromtimestamp(ms / 1000).isoformat()`: the exact value
of the millisecond timestamp divided by 1000, split into whole seconds
and microseconds.  `utcfromtimestamp` raises (ValueError, or
OSError/OverflowError for huge inputs) when the timestamp falls outside
datetime years 1-9999; callers guard with `tsInRange`, and this
function is the isoformat on that domain. -/
def msToIso (ms : Int) : String :=
  isoFromEpoch (ms.ediv 1000) ((ms.emod 1000).toNat * 1000)

/-- `datetime.utcnow().isoformat()` for a wall clock given as
microseconds since the epoch. -/
def usToIso (us : Int) : String :=
  isoFromEpoch (us.ediv 1000000) (us.emod 1000000).toNat

/-- The Python-level error that aborts processing of one message. -/
inductive PyErr where
  | attributeError
  | typeError
  | valueError
deriving Repr, DecidableEq

/-- `CDCEvent`: a parsed CDC change event from Debezium
(`cdc_realtime.py`, lines 34-43).  The dataclass fields hold whatever
objects the decoded payload supplied, so each field is a `Json` value;
an absent key surfaces as `None` = `Json.null`. -/
structure CDCEvent where
  table_name : Json
  operation : Json
  before : Json
  after : Json
  timestamp_ms : Json
  source_db : String := "ecommerce"
deriving Repr

/-- `CDCEvent.from_debezium` (lines 45-65): reads
`payload.get("source", {})`, then `.get` fields with defaults.  Calling
`.get` on a non-dict payload or non-dict `source` raises
AttributeError; nothing else can fail. -/
def from_debezium (payload : Json) : Except PyErr CDCEvent :=
  match payload with
  | .obj kvs =>
    match dictGetD kvs "source" (.obj []) with
    | .obj skvs =>
        .ok { table_name := dictGetD skvs "table" (.str "unknown")
              operation := dictGetD kvs "op" (.str "?")
              before := dictGetD kvs "before" .null
              after := dictGetD kvs "after" .null
              timestamp_ms := dictGetD kvs "ts_ms" (.num 0) }
    | _ => .error .attributeError
  | _ => .error .attributeError

/-- `CDCEvent.operation_label` (lines 67-71): dictionary lookup of the
operation code with default `"UNKNOWN"`. -/
def operation_label (e : CDCEvent) : String :=
  match e.operation with
  | .str "c" => "INSERT"
  | .str "u" => "UPDATE"
  | .str "d" => "DELETE"
  | .str "r" => "SNAPSHOT"
  | _ => "UNKNOWN"

/-- The numeric value of `timestamp_ms` as used by
`self.timestamp_ms / 1000`: ints (and bools, an int subclass in
Python) divide; anything else raises TypeError. -/
def tsNum : Json → Option Int
  | .num n => some n
  | .bool b => some (if b then 1 else 0)
  | _ => none

/-- The domain of `datetime.utcfromtimestamp(ms / 1000)`: datetime
supports years 1-9999 only, i.e. whole seconds from -62135596800
(0001-01-01T00:00:00) through 253402300799 (into 9999-12-31T23:59:59);
outside it the conversion raises (ValueError, or OSError/OverflowError
for huge values) and the row is never produced. -/
def tsInRange (ms : Int) : Prop :=
  -62135596800000 ≤ ms ∧ ms ≤ 253402300799999

instance (ms : Int) : Decidable (tsInRange ms) :=
  inferInstanceAs (Decidable (_ ∧ _))

/-- The BigQuery row produced by `CDCEvent.to_bigquery_row`
(lines 73-96): fixed audit columns plus flattened `col_*` columns. -/
structure SinkRow where
  cdc_table : Json
  cdc_operation : String
  cdc_timestamp : String
  before_data : Option String
  after_data : Option String
  raw_payload : String
  ingested_at : String
  cols : List (String × Option String)
deriving Repr

/-- `CDCEvent.to_bigquery_row` (lines 73-96), with `utcnow` passed in
as `nowUs` microseconds.  Failure points in source order: the
`operation_label` dict lookup raises TypeError on an unhashable
operation; `self.timestamp_ms / 1000` raises TypeError on a
non-number; `utcfromtimestamp` raises when the timestamp is outside
datetime years 1-9999 (`tsInRange`); `self.after.items()` raises
AttributeError when `after` is truthy but not a dict.  `before`/`after` serialize under Python
truthiness (`if self.before`), `raw_payload` is
`json.dumps(self.after or self.before or {})`, and a flattened value
maps to `None` exactly when it `is None`. -/
def to_bigquery_row (e : CDCEvent) (nowUs : Int) : Except PyErr SinkRow :=
  if hashableKey e.operation then
    match tsNum e.timestamp_ms with
    | none => .error .typeError
    | some ms =>
      if tsInRange ms then
      let base : SinkRow :=
        { cdc_table := e.table_name
          cdc_operation := operation_label e
          cdc_timestamp := msToIso ms
          before_data := if truthy e.before then some (dumps e.before) else none
          after_data := if truthy e.after then some (dumps e.after) else none
          raw_payload :=
            dumps (if truthy e.after then e.after
                   else if truthy e.before then e.before else .obj [])
          ingested_at := usToIso nowUs
          cols := [] }
      if truthy e.after then
        match e.after with
        | .obj akvs =>
            .ok { base with cols := akvs.map fun kv =>
                    ("col_" ++ kv.1,
                     match kv.2 with
                     | .null => none
                     | v => some (pyStr v)) }
        | _ => .error .attributeError
      else .ok base
      else .error .valueError
  else .error .typeError

/-- `CDCPipelineConfig` (lines 99-109) with its literal defaults; the
identifier fields default to the values used when the corresponding
environment variables are unset. -/
structure CDCPipelineConfig where
  project_id : String := "local-dev"
  subscription_id : String := "cdc-events-sub"
  dataset_id : String := "raw"
  batch_size : Nat := 100
  flush_interval_sec : ℚ := 5
  max_outstanding_messages : Nat := 1000
  ack_deadline_sec : Nat := 60

/-- A per-row insert error reported by the BigQuery client
(`insert_rows_json` returns one mapping per rejected row). -/
abbrev RowError := Json

/-- `BigQueryCDCSink.write_batch` (lines 171-196), with the BigQuery
client response to the single `insert_rows_json` call passed in as
`errors`.  Empty input short-circuits to 0 before any sink call; a
non-empty error list yields `len(rows) - len(errors)`; otherwise all
rows were written.  The `ensure_table_exists` call re-raises a table
creation failure; the embedding models a reachable sink, whose
failures are reported in-band through the insert response, so the
batch write itself never raises. -/
def write_batch (rows : List SinkRow) (errors : List RowError) : Nat :=
  if rows.isEmpty then 0
  else if !errors.isEmpty then rows.length - errors.length
  else rows.length

/-- The mutable fields of `CDCRealtimePipeline` (lines 217-222): the
per-table buffer (a dict, i.e. an insertion-ordered association list
keyed by the parsed table name), the global row counter, the last
flush wall-clock time, the running flag and the cumulative processed
count. -/
structure PipeState where
  buffer : List (Json × List SinkRow)
  buffer_count : Nat
  last_flush_time : ℚ
  running : Bool
  total_processed : Nat
deriving Repr

/-- The pipeline state right after `__init__` (lines 217-222). -/
def initState (startTime : ℚ) : PipeState :=
  { buffer := [], buffer_count := 0, last_flush_time := startTime,
    running := true, total_processed := 0 }

/-- `self._buffer[table_name]` for a present key (dict lookup by
Python `==`). -/
def bufGet (buf : List (Json × List SinkRow)) (t : Json) : List SinkRow :=
  match buf with
  | [] => []
  | (k, rs) :: rest => if Json.beq k t then rs else bufGet rest t

/-- Lines 233-235: create the row list of the table on first use (dicts
preserve insertion order, so a new key goes to the end), then append
the row to it. -/
def bufferAppend (buf : List (Json × List SinkRow)) (t : Json) (row : SinkRow) :
    List (Json × List SinkRow) :=
  match buf with
  | [] => [(t, [row])]
  | (k, rs) :: rest =>
      if Json.beq k t then (k, rs ++ [row]) :: rest
      else (k, rs) :: bufferAppend rest t row

/-- `CDCRealtimePipeline._should_flush` (lines 251-257), reading the
buffered count and the elapsed time `time.time() - self._last_flush_time`. -/
def should_flush (cfg : CDCPipelineConfig) (buffer_count : Nat) (elapsed : ℚ) : Bool :=
  if buffer_count ≥ cfg.batch_size then true
  else if elapsed ≥ cfg.flush_interval_sec then true
  else false

/-- `CDCRealtimePipeline._flush_all_buffers` (lines 259-280): empty
buffer returns immediately; otherwise the rows of every table are written
through the sink (the per-table insert responses supplied by `resp`),
the written counts are accumulated into `_total_processed`, and the
buffer, the counter and the last-flush time are reset. -/
def flush_all_buffers (st : PipeState) (resp : Json → List SinkRow → List RowError)
    (now : ℚ) : PipeState :=
  if st.buffer.isEmpty then st
  else
    let total_written := (st.buffer.map fun tb => write_batch tb.2 (resp tb.1 tb.2)).sum
    { st with buffer := [], buffer_count := 0, last_flush_time := now,
              total_processed := st.total_processed + total_written }

/-- The acknowledgment decision the handler takes for one message. -/
inductive Outcome where
  | ack
  | nack
deriving Repr, DecidableEq

/-- `CDCRealtimePipeline._handle_message` (lines 224-249).  `body` is
the result of decoding the message data: `none` when
`json.loads`/UTF-8 decoding raises (the message is nacked, line 246),
`some payload` otherwise.  A failure raised by parsing, projection or
the dict operations on the buffer is caught by the generic handler and
nacked (line 249); otherwise the row is appended to the buffer of its
table, the counter incremented, the message acked, and the buffers
flushed when `_should_flush()` fires. -/
def handle_message (cfg : CDCPipelineConfig) (st : PipeState) (body : Option Json)
    (nowUs : Int) (now : ℚ) (resp : Json → List SinkRow → List RowError) :
    PipeState × Outcome :=
  match body with
  | none => (st, .nack)
  | some payload =>
    match from_debezium payload with
    | .error _ => (st, .nack)
    | .ok ev =>
      match to_bigquery_row ev nowUs with
      | .error _ => (st, .nack)
      | .ok row =>
        if hashableKey ev.table_name then
          let st1 : PipeState :=
            { st with buffer := bufferAppend st.buffer ev.table_name row,
                      buffer_count := st.buffer_count + 1 }
          let st2 :=
            if should_flush cfg st1.buffer_count (now - st1.last_flush_time)
            then flush_all_buffers st1 resp now else st1
          (st2, .ack)
        else (st, .nack)

/-!
Interleaving model for the buffer/flush race (claim about
`snapshotAndClear` vs concurrent appends).  The Pub/Sub client invokes
`_handle_message` from worker threads while the `run` loop flushes, and
`cdc_realtime.py` takes no lock.  A flush consists of two separately
scheduled phases: the write loop over the current buffer contents
(lines 264-267, blocking on network I/O) and the subsequent
`self._buffer.clear()` (line 278).  An append (line 235) is a single
`list.append`, atomic under the interpreter lock.  Rows are abstracted
to their identities; one shared buffer stands for the buffer set.
-/

/-- One atomic micro-step of the racing pipeline: an append from a
message callback, the write phase of a flush (it snapshots what the
buffer holds and emits it to the sink), or the clear phase of a flush. -/
inductive RaceOp where
  | append (r : Nat)
  | flushWrite
  | flushClear
deriving Repr, DecidableEq

/-- The shared state: the live buffer and the batches written out. -/
structure RaceState where
  buffer : List Nat
  written : List (List Nat)
deriving Repr, DecidableEq

/-- Effect of one micro-step. -/
def raceStep (s : RaceState) : RaceOp → RaceState
  | .append r => { s with buffer := s.buffer ++ [r] }
  | .flushWrite => { s with written := s.written ++ [s.buffer] }
  | .flushClear => { s with buffer := [] }

/-- Run a schedule of micro-steps. -/
def raceRun (s : RaceState) : List RaceOp → RaceState
  | [] => s
  | op :: ops => raceRun (raceStep s op) ops

/-- Number of appends in a schedule. -/
def raceAppends : List RaceOp → Nat
  | [] => 0
  | .append _ :: ops => raceAppends ops + 1
  | _ :: ops => raceAppends ops

/-- Total number of rows in all written batches. -/
def writtenRows (s : RaceState) : Nat := (s.written.map List.length).sum

/-- A whole pipeline operation executed without interleaving: an
append, or a complete flush (write phase immediately followed by the
clear phase). -/
inductive EngineOp where
  | append (r : Nat)
  | flush
deriving Repr, DecidableEq

/-- Effect of one atomic whole operation. -/
def engineStep (s : RaceState) : EngineOp → RaceState
  | .append r => { s with buffer := s.buffer ++ [r] }
  | .flush => { buffer := [], written := s.written ++ [s.buffer] }

/-- Run a schedule of atomic whole operations. -/
def engineRun (s : RaceState) : List EngineOp → RaceState
  | [] => s
  | op :: ops => engineRun (engineStep s op) ops

/-- Number of appends in an atomic schedule. -/
def engineAppends : List EngineOp → Nat
  | [] => 0
  | .append _ :: ops => engineAppends ops + 1
  | .flush :: ops => engineAppends ops

/-- An atomic flush is exactly its two micro-phases back to back. -/
theorem engineStep_flush_eq (s : RaceState) :
    engineStep s .flush = raceStep (raceStep s .flushWrite) .flushClear := rfl

/-- An atomic append is the same micro-step. -/
theorem engineStep_append_eq (s : RaceState) (r : Nat) :
    engineStep s (.append r) = raceStep s (.append r) := rfl

/-- A placeholder sink row (used to name concrete rows produced by the
projection in closed statements). -/
def defaultSinkRow : SinkRow :=
  { cdc_table := .null, cdc_operation := "", cdc_timestamp := "",
    before_data := none, after_data := none, raw_payload := "",
    ingested_at := "", cols := [] }

/-- A placeholder event (used to name concrete parses in closed
statements). -/
def defaultEvent : CDCEvent :=
  { table_name := .null, operation := .null, before := .null,
    after := .null, timestamp_ms := .null }

/-- Concrete payload for the counterexample of claim C4: valid JSON, op
code outside the mapped set, but a string `ts_ms`. -/
def c4BadPayload : Json := .obj [("op", .str "x"), ("ts_ms", .str "abc")]

/-- Concrete well-typed payload items for the witness of claim C4. -/
def c4Kvs : List (String × Json) :=
  [("source", .obj [("table", .str "orders")]), ("op", .str "x"),
   ("ts_ms", .num 5), ("after", .obj [("qty", .num 2)])]

/-- The event parsed from `c4Kvs`. -/
def c4Event : CDCEvent := (from_debezium (.obj c4Kvs)).toOption.getD defaultEvent

/-- Concrete event for claim C5: millisecond timestamp 0. -/
def c5Event : CDCEvent :=
  { table_name := .str "orders", operation := .str "c", before := .null,
    after := .obj [("id", .num 1)], timestamp_ms := .num 0 }

/-- The row projected from `c5Event` at a 2023 wall clock. -/
def c5Row : SinkRow :=
  (to_bigquery_row c5Event 1700000000000000).toOption.getD defaultSinkRow

/-- Concrete payload items for claim C6: neither `before` nor `after`
present. -/
def c6Kvs : List (String × Json) := [("op", .str "c"), ("ts_ms", .num 5)]

/-- The event parsed from `c6Kvs`. -/
def c6Event : CDCEvent := (from_debezium (.obj c6Kvs)).toOption.getD defaultEvent

/-- The row projected from `c6Event`. -/
def c6Row : SinkRow := (to_bigquery_row c6Event 0).toOption.getD defaultSinkRow

/-- Concrete payload for claim C9: `after` present but the empty
object, `before` non-empty. -/
def c9Payload : Json :=
  .obj [("before", .obj [("a", .num 1)]), ("after", .obj []),
        ("source", .obj [("table", .str "orders")]), ("op", .str "u"),
        ("ts_ms", .num 5)]

/-- The event parsed from `c9Payload`. -/
def c9Event : CDCEvent := (from_debezium c9Payload).toOption.getD defaultEvent

/-- The row projected from `c9Event`. -/
def c9Row : SinkRow := (to_bigquery_row c9Event 0).toOption.getD defaultSinkRow

/- Helper lemmas. -/

theorem natReprCore_length (fuel : Nat) :
    ∀ n (acc : String), acc.length + 1 ≤ (natReprCore (fuel + 1) n acc).length := by
  induction fuel with
  | zero =>
    intro n acc
    simp only [natReprCore]
    split <;> simp [String.length_append] <;> omega
  | succ f ih =>
    intro n acc
    have h2 := ih (n / 10) (String.singleton (digitChar (n % 10)) ++ acc)
    have hlen : (String.singleton (digitChar (n % 10)) ++ acc).length = acc.length + 1 := by
      simp [String.length_append]
      try omega
    simp only [natReprCore] at h2 ⊢
    split
    · omega
    · omega

theorem natRepr_length_pos (n : Nat) : 0 < (natRepr n).length := by
  have := natReprCore_length n n ""
  have hz : ("" : String).length = 0 := by decide
  unfold natRepr
  omega

theorem intRepr_length_pos (n : Int) : 0 < (intRepr n).length := by
  unfold intRepr
  split
  · rw [String.length_append]
    have := natRepr_length_pos (-n).toNat
    omega
  · exact natRepr_length_pos n.toNat

theorem dumps_length_pos (j : Json) : 0 < (dumps j).length := by
  cases j with
  | null => decide
  | bool b => cases b <;> decide
  | num n => simpa only [dumps] using intRepr_length_pos n
  | str s =>
    have hq : ("\"" : String).length = 1 := by decide
    simp only [dumps, dumpStr]
    rw [String.length_append, String.length_append]
    omega
  | arr xs =>
    have hb : ("[" : String).length = 1 := by decide
    simp only [dumps]
    rw [String.length_append, String.length_append]
    omega
  | obj kvs =>
    have hb : ("\x7b" : String).length = 1 := by decide
    simp only [dumps]
    rw [String.length_append, String.length_append]
    omega

theorem dumps_ne_empty (j : Json) : dumps j ≠ "" := by
  intro h
  have := dumps_length_pos j
  rw [h] at this
  exact absurd this (by decide)

theorem beq_refl_of_hashable (t : Json) (h : hashableKey t = true) :
    Json.beq t t = true := by
  cases t <;> simp_all [Json.beq, hashableKey]

theorem bufGet_bufferAppend (buf : List (Json × List SinkRow)) (t : Json) (row : SinkRow)
    (h : Json.beq t t = true) :
    bufGet (bufferAppend buf t row) t = bufGet buf t ++ [row] := by
  induction buf with
  | nil => simp [bufferAppend, bufGet, h]
  | cons p rest ih =>
    obtain ⟨k, rs⟩ := p
    cases hk : Json.beq k t with
    | true => simp [bufferAppend, bufGet, hk]
    | false => simp [bufferAppend, bufGet, hk, ih]

/-- Claim C1, counterexample.  A message whose body is not valid JSON
(`json.loads` raises) is NOT acknowledged by the handler: line 246
calls `message.nack()`, requesting redelivery, contrary to the claimed
ack-and-drop behavior. -/
theorem c1_counterexample :
    (handle_message {} (initState 0) none 0 0 fun _ _ => []).2 = Outcome.nack ∧
      Outcome.nack ≠ Outcome.ack :=
  ⟨rfl, by decide⟩

/-- Claim C1 as amended: for every inbound message whose body is not
valid JSON, the handler nacks the message (requests redelivery),
leaves the pipeline state untouched (no row buffered, no counter --
the error is only logged), and the parse failure does not escape the
handler (the handler is total and returns normally). -/
theorem c1_invalid_json_nacked (cfg : CDCPipelineConfig) (st : PipeState)
    (nowUs : Int) (now : ℚ) (resp : Json → List SinkRow → List RowError) :
    handle_message cfg st none nowUs now resp = (st, Outcome.nack) := rfl

/-- Claim C2: the flush decision returns true iff the buffered count
reached the configured batch size or the elapsed time since the last
flush reached the configured flush interval; both bounds inclusive. -/
theorem c2_should_flush_iff (cfg : CDCPipelineConfig) (count : Nat) (elapsed : ℚ) :
    should_flush cfg count elapsed = true ↔
      (cfg.batch_size ≤ count ∨ cfg.flush_interval_sec ≤ elapsed) := by
  unfold should_flush
  split_ifs with h1 h2 <;> simp_all [ge_iff_le, not_or]

/-- Claim C3, counterexample.  The source takes no lock, so the flush
write loop (lines 264-267) and its `buffer.clear()` (line 278) can be
separated by a concurrent append; in the schedule below the second
appended row is cleared without ever being written, so the claimed
conservation sum fails: 1 written + 0 remaining, but 2 appends. -/
theorem c3_counterexample :
    writtenRows (raceRun ⟨[], []⟩ [.append 1, .flushWrite, .append 2, .flushClear]) +
        (raceRun ⟨[], []⟩ [.append 1, .flushWrite, .append 2, .flushClear]).buffer.length
      ≠ raceAppends [.append 1, .flushWrite, .append 2, .flushClear] := by
  decide

/-- Claim C3 as amended: append and snapshot-and-clear are NOT guarded
by a mutex in the source, and conservation can fail under interleaving
(see the counterexample); when every flush runs atomically (its write
and clear phases back to back, no append in between), no row is lost
or duplicated: rows written plus rows remaining always equals rows
appended. -/
theorem c3_atomic_conservation (ops : List EngineOp) (s : RaceState) :
    writtenRows (engineRun s ops) + (engineRun s ops).buffer.length
      = writtenRows s + s.buffer.length + engineAppends ops := by
  induction ops generalizing s with
  | nil => simp [engineRun, engineAppends]
  | cons op ops ih =>
    cases op with
    | append r =>
      simp only [engineRun, engineStep, engineAppends]
      rw [ih]
      simp [writtenRows]
      try omega
    | flush =>
      simp only [engineRun, engineStep, engineAppends]
      rw [ih]
      simp [writtenRows]
      try omega

/-- Claim C7, counterexample.  `write_batch` returns only an `int`
(line 189 returns `len(rows) - len(errors)`); the per-row errors are
logged, not returned: two runs whose sinks rejected the one row for
different reasons return the same value, so the claimed
`(written, failures)` pair is not what the caller receives. -/
theorem c7_counterexample :
    write_batch [defaultSinkRow] [Json.str "row error A"]
        = write_batch [defaultSinkRow] [Json.str "row error B"] ∧
      Json.str "row error A" ≠ Json.str "row error B" := by
  refine ⟨rfl, fun h => ?_⟩
  injection h with h2
  exact absurd h2 (by decide)

/-- Claim C7 as amended: for every non-empty batch, `write_batch`
returns only the count of rows actually written -- the full row count
when the insert response is clean, `len(rows) - len(errors)` on a
partial failure; per-row errors are logged but not returned, there is
no internal retry (the sink is consulted exactly once per call), and a
partial failure does not raise. -/
theorem c7_write_batch_returns_count (rows : List SinkRow) (errors : List RowError)
    (h : rows ≠ []) :
    write_batch rows errors
      = if errors.isEmpty then rows.length else rows.length - errors.length := by
  unfold write_batch
  cases rows with
  | nil => exact absurd rfl h
  | cons a as =>
    simp only [List.isEmpty]
    cases errors <;> simp

/-- Witness for the amended claim C7. -/
theorem c7_witness :
    write_batch [defaultSinkRow] [Json.str "boom"]
      = if ([Json.str "boom"] : List RowError).isEmpty
        then [defaultSinkRow].length else [defaultSinkRow].length - [Json.str "boom"].length :=
  c7_write_batch_returns_count [defaultSinkRow] [Json.str "boom"] (by simp)

/-- Claim C8: flushing a non-empty buffer set always ends with every
buffer empty (rows of a failed or partially failed write are not
re-buffered), the global row counter at 0 and the last-flush time
reset to the flush time, whatever per-row errors the sink reported
(`resp` is universally quantified), and the running flag untouched. -/
theorem c8_flush_resets (st : PipeState) (resp : Json → List SinkRow → List RowError)
    (now : ℚ) (h : st.buffer ≠ []) :
    (flush_all_buffers st resp now).buffer = [] ∧
      (flush_all_buffers st resp now).buffer_count = 0 ∧
      (flush_all_buffers st resp now).last_flush_time = now ∧
      (flush_all_buffers st resp now).running = st.running := by
  have hne : st.buffer.isEmpty = false := by
    cases hb : st.buffer with
    | nil => exact absurd hb h
    | cons a as => rfl
  unfold flush_all_buffers
  rw [hne]
  simp

/-- Witness for claim C8. -/
theorem c8_witness :
    (flush_all_buffers ⟨[(.str "orders", [defaultSinkRow])], 1, 0, true, 0⟩
          (fun _ _ => []) 3).buffer = [] ∧
      (flush_all_buffers ⟨[(.str "orders", [defaultSinkRow])], 1, 0, true, 0⟩
          (fun _ _ => []) 3).buffer_count = 0 ∧
      (flush_all_buffers ⟨[(.str "orders", [defaultSinkRow])], 1, 0, true, 0⟩
          (fun _ _ => []) 3).last_flush_time = 3 ∧
      (flush_all_buffers ⟨[(.str "orders", [defaultSinkRow])], 1, 0, true, 0⟩
          (fun _ _ => []) 3).running
        = (⟨[(.str "orders", [defaultSinkRow])], 1, 0, true, 0⟩ : PipeState).running :=
  c8_flush_resets ⟨[(.str "orders", [defaultSinkRow])], 1, 0, true, 0⟩
    (fun _ _ => []) 3 (by simp)

/-- Claim C10: row projection is deterministic: projecting the same
change record twice with the same wall clock yields byte-identical
rows (the projection is a pure function of the record and the clock). -/
theorem c10_projection_deterministic (e1 e2 : CDCEvent) (n1 n2 : Int)
    (he : e1 = e2) (hn : n1 = n2) :
    to_bigquery_row e1 n1 = to_bigquery_row e2 n2 := by
  rw [he, hn]

/-- The concrete event used in the witness for claim C10. -/
def c10Event : CDCEvent :=
  { table_name := .str "orders", operation := .str "u",
    before := .obj [("id", .num 1), ("st", .str "PENDING")],
    after := .obj [("id", .num 1), ("st", .str "PAID")],
    timestamp_ms := .num 1700000001000 }

/-- Witness for claim C10. -/
theorem c10_witness :
    to_bigquery_row c10Event 1700000002000000
      = to_bigquery_row c10Event 1700000002000000 :=
  c10_projection_deterministic c10Event c10Event 1700000002000000 1700000002000000
    rfl rfl

/-- Parsing an object payload whose `source` entry resolves to an
object always succeeds, with the fields read off the payload. -/
theorem from_debezium_obj (kvs skvs : List (String × Json))
    (hsrc : dictGetD kvs "source" (.obj []) = .obj skvs) :
    from_debezium (.obj kvs)
      = .ok { table_name := dictGetD skvs "table" (.str "unknown"),
              operation := dictGetD kvs "op" (.str "?"),
              before := dictGetD kvs "before" .null,
              after := dictGetD kvs "after" .null,
              timestamp_ms := dictGetD kvs "ts_ms" (.num 0) } := by
  simp only [from_debezium, hsrc]

/-- An unmapped operation value labels as UNKNOWN. -/
theorem operation_label_unknown (e : CDCEvent)
    (hop : ∀ s, e.operation = .str s → ¬(s = "c" ∨ s = "u" ∨ s = "d" ∨ s = "r")) :
    operation_label e = "UNKNOWN" := by
  unfold operation_label
  split
  next heq => exact absurd (Or.inl rfl) (hop "c" heq)
  next heq => exact absurd (Or.inr (Or.inl rfl)) (hop "u" heq)
  next heq => exact absurd (Or.inr (Or.inr (Or.inl rfl))) (hop "d" heq)
  next heq => exact absurd (Or.inr (Or.inr (Or.inr rfl))) (hop "r" heq)
  next => rfl

/-- The projection succeeds whenever the operation is hashable, the
timestamp is numeric and the after image is falsy or a dict. -/
theorem to_bigquery_row_isOk (e : CDCEvent) (nowUs ms : Int)
    (hh : hashableKey e.operation = true)
    (hts : tsNum e.timestamp_ms = some ms)
    (hrange : tsInRange ms)
    (haf : truthy e.after = false ∨ ∃ akvs, e.after = .obj akvs) :
    ∃ row, to_bigquery_row e nowUs = .ok row := by
  unfold to_bigquery_row
  rcases haf with hta | ⟨akvs, hobj⟩
  · simp [hh, hts, hta, hrange]
  · cases hta : truthy e.after
    · simp [hh, hts, hta, hrange]
    · simp [hh, hts, hta, hobj, hrange]

/-- Every successfully projected row carries the audit fields computed
from the record: the label, the event time derived from the numeric
millisecond timestamp, the raw payload chosen by truthiness, and the
ingestion time. -/
theorem to_bigquery_row_fields (e : CDCEvent) (nowUs : Int) (row : SinkRow)
    (hok : to_bigquery_row e nowUs = .ok row) :
    ∃ ms, tsNum e.timestamp_ms = some ms ∧ tsInRange ms ∧
      row.cdc_operation = operation_label e ∧
      row.cdc_timestamp = msToIso ms ∧
      row.raw_payload = dumps (if truthy e.after then e.after
        else if truthy e.before then e.before else .obj []) ∧
      row.ingested_at = usToIso nowUs := by
  unfold to_bigquery_row at hok
  by_cases hh : hashableKey e.operation = true
  · rw [if_pos hh] at hok
    cases hts : tsNum e.timestamp_ms with
    | none => rw [hts] at hok; simp at hok
    | some ms =>
      rw [hts] at hok
      by_cases hr : tsInRange ms
      · refine ⟨ms, rfl, hr, ?_⟩
        cases hta : truthy e.after with
        | false =>
          rw [hta] at hok
          simp only [hr, if_true, Bool.false_eq_true, if_false, Except.ok.injEq] at hok
          subst hok
          simp [hta]
        | true =>
          rw [hta] at hok
          cases haf : e.after with
          | obj akvs =>
            rw [haf] at hok
            simp only [hr, if_true, Except.ok.injEq] at hok
            subst hok
            simp [hta, haf]
          | null => rw [haf] at hok; simp [hr] at hok
          | bool b => rw [haf] at hok; simp [hr] at hok
          | num n => rw [haf] at hok; simp [hr] at hok
          | str s => rw [haf] at hok; simp [hr] at hok
          | arr xs => rw [haf] at hok; simp [hr] at hok
      · simp [hr] at hok
  · rw [if_neg hh] at hok
    simp at hok

/-- An acknowledged, buffered, non-flushing pass of the handler:
when parsing and projection succeed, the table name is hashable and
the flush policy does not fire after the append, the handler acks and
exactly appends the projected row to the buffer of the table. -/
theorem handle_message_ok (cfg : CDCPipelineConfig) (st : PipeState) (payload : Json)
    (nowUs : Int) (now : ℚ) (resp : Json → List SinkRow → List RowError)
    (ev : CDCEvent) (row : SinkRow)
    (hfd : from_debezium payload = .ok ev)
    (hok : to_bigquery_row ev nowUs = .ok row)
    (htab : hashableKey ev.table_name = true)
    (hnf : should_flush cfg (st.buffer_count + 1) (now - st.last_flush_time) = false) :
    handle_message cfg st (some payload) nowUs now resp
      = ({ st with buffer := bufferAppend st.buffer ev.table_name row,
                   buffer_count := st.buffer_count + 1 }, .ack) := by
  simp only [handle_message, hfd, hok, htab, hnf]
  simp

/-- When both images are absent, the projected raw payload is the
serialization of the empty object. -/
theorem raw_payload_empty_of_absent (e : CDCEvent) (nowUs : Int) (row : SinkRow)
    (hb : e.before = .null) (ha : e.after = .null)
    (hok : to_bigquery_row e nowUs = .ok row) :
    row.raw_payload = "\x7b\x7d" := by
  obtain ⟨ms, _, _, _, _, hraw, _⟩ := to_bigquery_row_fields e nowUs row hok
  rw [hb, ha] at hraw
  simp only [truthy] at hraw
  rw [hraw]
  decide

/-- Claim C4, counterexample.  A valid-JSON message whose op code `x`
lies outside the mapped set parses fine and labels UNKNOWN, yet the
handler still nacks it and buffers nothing, because its `ts_ms` is a
string and the projection raises; so valid-JSON bodies other than
non-JSON ones can also fail, contradicting the claim that such a
message is always buffered and that only non-JSON bodies fail. -/
theorem c4_counterexample :
    (∃ ev, from_debezium c4BadPayload = .ok ev ∧ ev.operation = .str "x" ∧
        operation_label ev = "UNKNOWN") ∧
      handle_message {} (initState 0) (some c4BadPayload) 0 0 (fun _ _ => [])
        = (initState 0, .nack) :=
  ⟨⟨_, rfl, rfl, rfl⟩, rfl⟩

/-- Claim C4 as amended: for a valid-JSON object message whose source
entry is an object (or absent), whose op value is none of the mapped
code strings, whose `ts_ms` is an integer within the
datetime-representable range of years 1-9999 (an out-of-range
timestamp raises in projection and the message is nacked unbuffered,
another failure of a valid-JSON body), whose after image is
falsy or an object, and whose table name and op are hashable, parsing
succeeds, the label is UNKNOWN, the table name defaults through the
`table` entry of the source (`"unknown"` when absent), and the projected
row is appended to the buffer of that table with the message acked (shown
here for a pass on which the flush policy does not fire). -/
theorem c4_unknown_op_buffered (cfg : CDCPipelineConfig) (st : PipeState)
    (kvs skvs : List (String × Json)) (ms nowUs : Int) (now : ℚ)
    (resp : Json → List SinkRow → List RowError) (ev : CDCEvent)
    (hsrc : dictGetD kvs "source" (.obj []) = .obj skvs)
    (hop : ∀ s, dictGetD kvs "op" (.str "?") = .str s →
        ¬(s = "c" ∨ s = "u" ∨ s = "d" ∨ s = "r"))
    (hophash : hashableKey (dictGetD kvs "op" (.str "?")) = true)
    (hts : dictGetD kvs "ts_ms" (.num 0) = .num ms)
    (hrange : tsInRange ms)
    (haf : truthy (dictGetD kvs "after" .null) = false ∨
        ∃ akvs, dictGetD kvs "after" .null = .obj akvs)
    (htab : hashableKey (dictGetD skvs "table" (.str "unknown")) = true)
    (hnf : should_flush cfg (st.buffer_count + 1) (now - st.last_flush_time) = false)
    (hfd : from_debezium (.obj kvs) = .ok ev) :
    operation_label ev = "UNKNOWN" ∧
    ev.table_name = dictGetD skvs "table" (.str "unknown") ∧
    ∃ row, to_bigquery_row ev nowUs = .ok row ∧
      row.cdc_operation = "UNKNOWN" ∧
      handle_message cfg st (some (.obj kvs)) nowUs now resp
        = ({ st with buffer := bufferAppend st.buffer ev.table_name row,
                     buffer_count := st.buffer_count + 1 }, .ack) ∧
      bufGet (bufferAppend st.buffer ev.table_name row) ev.table_name
        = bufGet st.buffer ev.table_name ++ [row] := by
  rw [from_debezium_obj kvs skvs hsrc] at hfd
  injection hfd with h
  subst h
  have hlab : operation_label
      { table_name := dictGetD skvs "table" (.str "unknown"),
        operation := dictGetD kvs "op" (.str "?"),
        before := dictGetD kvs "before" .null,
        after := dictGetD kvs "after" .null,
        timestamp_ms := dictGetD kvs "ts_ms" (.num 0) } = "UNKNOWN" :=
    operation_label_unknown _ hop
  refine ⟨hlab, rfl, ?_⟩
  obtain ⟨row, hok⟩ :=
    to_bigquery_row_isOk
      { table_name := dictGetD skvs "table" (.str "unknown"),
        operation := dictGetD kvs "op" (.str "?"),
        before := dictGetD kvs "before" .null,
        after := dictGetD kvs "after" .null,
        timestamp_ms := dictGetD kvs "ts_ms" (.num 0) } nowUs ms hophash
      (by show tsNum (dictGetD kvs "ts_ms" (.num 0)) = some ms; rw [hts]; rfl) hrange haf
  obtain ⟨ms2, _, _, hco, _, _, _⟩ := to_bigquery_row_fields _ nowUs row hok
  refine ⟨row, hok, ?_, ?_, ?_⟩
  · rw [hco]; exact hlab
  · exact handle_message_ok cfg st (.obj kvs) nowUs now resp _ row
      (from_debezium_obj kvs skvs hsrc) hok htab hnf
  · exact bufGet_bufferAppend st.buffer _ row (beq_refl_of_hashable _ htab)

/-- Witness for the amended claim C4. -/
theorem c4_witness :
    operation_label c4Event = "UNKNOWN" ∧
    c4Event.table_name = dictGetD [("table", Json.str "orders")] "table" (.str "unknown") ∧
    ∃ row, to_bigquery_row c4Event 0 = .ok row ∧
      row.cdc_operation = "UNKNOWN" ∧
      handle_message {} (initState 0) (some (.obj c4Kvs)) 0 0 (fun _ _ => [])
        = ({ initState 0 with
               buffer := bufferAppend (initState 0).buffer c4Event.table_name row,
               buffer_count := (initState 0).buffer_count + 1 }, .ack) ∧
      bufGet (bufferAppend (initState 0).buffer c4Event.table_name row) c4Event.table_name
        = bufGet (initState 0).buffer c4Event.table_name ++ [row] :=
  c4_unknown_op_buffered {} (initState 0) c4Kvs [("table", Json.str "orders")] 5 0 0
    (fun _ _ => []) c4Event rfl
    (by intro s hs hc
        have hs2 : Json.str "x" = Json.str s := hs
        injection hs2 with h2
        subst h2
        exact absurd hc (by decide))
    rfl rfl (by decide) (Or.inr ⟨[("qty", Json.num 2)], rfl⟩) rfl
    (by norm_num [should_flush, initState]) rfl

/-- Claim C5, counterexample.  A record with millisecond timestamp 0
projects the epoch timestamp into the event-time column; the ingestion
wall clock is NOT substituted (the two columns differ). -/
theorem c5_counterexample :
    ∃ row, to_bigquery_row c5Event 1700000000000000 = .ok row ∧
      row.cdc_timestamp = "1970-01-01T00:00:00" ∧
      row.ingested_at = "2023-11-14T22:13:20" ∧
      row.cdc_timestamp ≠ row.ingested_at := by
  refine ⟨_, rfl, rfl, rfl, ?_⟩
  decide

/-- Claim C5 as amended: a record whose millisecond timestamp is 0 is
not dropped -- it still projects -- but the event-time column receives
the epoch timestamp `1970-01-01T00:00:00`, not the ingestion time;
ingestion time only ever populates the separate `ingested_at` column. -/
theorem c5_zero_ts_keeps_epoch (e : CDCEvent) (nowUs : Int) (row : SinkRow)
    (hts : e.timestamp_ms = .num 0)
    (hok : to_bigquery_row e nowUs = .ok row) :
    row.cdc_timestamp = "1970-01-01T00:00:00" := by
  obtain ⟨ms, hms, _, _, hct, _, _⟩ := to_bigquery_row_fields e nowUs row hok
  rw [hts] at hms
  simp only [tsNum, Option.some.injEq] at hms
  subst hms
  rw [hct]
  decide

/-- Witness for the amended claim C5. -/
theorem c5_witness : c5Row.cdc_timestamp = "1970-01-01T00:00:00" :=
  c5_zero_ts_keeps_epoch c5Event 1700000000000000 c5Row rfl rfl

/-- Claim C6, counterexample.  A valid-JSON record with neither
`before` nor `after` parses successfully (both images `None`), is
projected, buffered and acked -- it is not treated as a parse failure
and is silently retained, contrary to the claimed invariant. -/
theorem c6_counterexample :
    (∃ ev, from_debezium (.obj c6Kvs) = .ok ev ∧ ev.before = .null ∧ ev.after = .null) ∧
      (handle_message {} (initState 0) (some (.obj c6Kvs)) 0 0 fun _ _ => []).2 = .ack ∧
      (handle_message {} (initState 0) (some (.obj c6Kvs)) 0 0 fun _ _ => []).1.buffer_count
        = 1 := by
  have hnf : should_flush {} ((initState 0).buffer_count + 1)
      ((0 : ℚ) - (initState 0).last_flush_time) = false := by
    norm_num [should_flush, initState]
  have h := handle_message_ok {} (initState 0) (.obj c6Kvs) 0 0 (fun _ _ => [])
      c6Event c6Row rfl rfl rfl hnf
  exact ⟨⟨c6Event, rfl, rfl, rfl⟩, by rw [h], by rw [h]; rfl⟩

/-- Claim C6 as amended: a valid-JSON object record with both images
absent and an integer `ts_ms` within the datetime-representable range
of years 1-9999 parses successfully (`before = after = None`),
projects a row whose raw payload serializes the empty object, and is
buffered and acked like any other record; no both-absent invariant is
enforced anywhere.  (An out-of-range timestamp raises in projection
and the record is nacked unbuffered -- still not a parse failure and
still no image check.) -/
theorem c6_both_absent_retained (cfg : CDCPipelineConfig) (st : PipeState)
    (kvs skvs : List (String × Json)) (ms nowUs : Int) (now : ℚ)
    (resp : Json → List SinkRow → List RowError) (ev : CDCEvent)
    (hsrc : dictGetD kvs "source" (.obj []) = .obj skvs)
    (hb : dictGetD kvs "before" .null = .null)
    (ha : dictGetD kvs "after" .null = .null)
    (hophash : hashableKey (dictGetD kvs "op" (.str "?")) = true)
    (hts : dictGetD kvs "ts_ms" (.num 0) = .num ms)
    (hrange : tsInRange ms)
    (htab : hashableKey (dictGetD skvs "table" (.str "unknown")) = true)
    (hnf : should_flush cfg (st.buffer_count + 1) (now - st.last_flush_time) = false)
    (hfd : from_debezium (.obj kvs) = .ok ev) :
    ev.before = .null ∧ ev.after = .null ∧
    ∃ row, to_bigquery_row ev nowUs = .ok row ∧
      row.raw_payload = "\x7b\x7d" ∧
      handle_message cfg st (some (.obj kvs)) nowUs now resp
        = ({ st with buffer := bufferAppend st.buffer ev.table_name row,
                     buffer_count := st.buffer_count + 1 }, .ack) := by
  rw [from_debezium_obj kvs skvs hsrc] at hfd
  injection hfd with h
  subst h
  refine ⟨hb, ha, ?_⟩
  obtain ⟨row, hok⟩ :=
    to_bigquery_row_isOk
      { table_name := dictGetD skvs "table" (.str "unknown"),
        operation := dictGetD kvs "op" (.str "?"),
        before := dictGetD kvs "before" .null,
        after := dictGetD kvs "after" .null,
        timestamp_ms := dictGetD kvs "ts_ms" (.num 0) } nowUs ms hophash
      (by show tsNum (dictGetD kvs "ts_ms" (.num 0)) = some ms; rw [hts]; rfl) hrange
      (Or.inl (by show truthy (dictGetD kvs "after" .null) = false; rw [ha]; rfl))
  refine ⟨row, hok, ?_, ?_⟩
  · exact raw_payload_empty_of_absent _ nowUs row hb ha hok
  · exact handle_message_ok cfg st (.obj kvs) nowUs now resp _ row
      (from_debezium_obj kvs skvs hsrc) hok htab hnf

/-- Witness for the amended claim C6. -/
theorem c6_witness :
    c6Event.before = .null ∧ c6Event.after = .null ∧
    ∃ row, to_bigquery_row c6Event 0 = .ok row ∧
      row.raw_payload = "\x7b\x7d" ∧
      handle_message {} (initState 0) (some (.obj c6Kvs)) 0 0 (fun _ _ => [])
        = ({ initState 0 with
               buffer := bufferAppend (initState 0).buffer c6Event.table_name row,
               buffer_count := (initState 0).buffer_count + 1 }, .ack) :=
  c6_both_absent_retained {} (initState 0) c6Kvs [] 5 0 0 (fun _ _ => []) c6Event
    rfl rfl rfl rfl rfl (by decide) rfl (by norm_num [should_flush, initState]) rfl

/-- Claim C9, counterexample.  An envelope whose `after` image is
present but the empty object does not serialize `after` into the raw
column: Python truthiness skips the empty dict and the `before` image
is serialized instead. -/
theorem c9_counterexample :
    ∃ ev row, from_debezium c9Payload = .ok ev ∧ ev.after = .obj [] ∧
      to_bigquery_row ev 0 = .ok row ∧
      row.raw_payload = dumps ev.before ∧
      row.raw_payload ≠ dumps ev.after := by
  refine ⟨_, _, rfl, rfl, rfl, rfl, ?_⟩
  decide

/-- Claim C9 as amended: every successfully projected row has a
non-empty (and by construction non-null) raw-payload column, equal to
the serialization of the after image if truthy (present and
non-empty), else the before image if truthy, else the empty object. -/
theorem c9_raw_nonempty_truthiness (e : CDCEvent) (nowUs : Int) (row : SinkRow)
    (hok : to_bigquery_row e nowUs = .ok row) :
    row.raw_payload ≠ "" ∧
      row.raw_payload = dumps (if truthy e.after then e.after
        else if truthy e.before then e.before else .obj []) := by
  obtain ⟨ms, _, _, _, _, hraw, _⟩ := to_bigquery_row_fields e nowUs row hok
  refine ⟨?_, hraw⟩
  rw [hraw]
  exact dumps_ne_empty _

/-- Witness for the amended claim C9. -/
theorem c9_witness :
    c9Row.raw_payload ≠ "" ∧
      c9Row.raw_payload = dumps (if truthy c9Event.after then c9Event.after
        else if truthy c9Event.before then c9Event.before else .obj []) :=
  c9_raw_nonempty_truthiness c9Event 0 c9Row rfl
